import Mathlib

/-
Verification of the dataquality engine (src/dataquality.ipynb).

The engine is a pandas-based class `DataQuality` with operations
`flag`, `describe`, `clean` and `values_format`.  The shallow embedding
below models pandas DataFrames as rectangular tables of tagged values
(column-major), with pandas missing-data semantics made explicit:
`None` and `NaN` are both "NA"; `DataFrame.duplicated` and `Series.isin`
treat NA as matching NA, while elementwise `==` never matches NA.
Python floats are modelled as rationals (no floating-point claim is in
scope; only `is_integer`, exact int/str conversion and NaN-ness of
floats are used by the source).  Deep copies are value copies, so the
model threads engine state explicitly: every operation takes the state
and an optional external table and returns the updated state with its
result, mirroring exactly which `self.*` field each code path assigns.
-/

set_option maxHeartbeats 1000000

namespace DQ

/-- A cell value of a pandas DataFrame as used by the source: Python
`None`, float NaN, `str`, `int`, `bool`, or `float` (modelled as `Rat`). -/
inductive Value where
  | none : Value
  | nan : Value
  | str : String → Value
  | int : Int → Value
  | bool : Bool → Value
  | float : Rat → Value
deriving DecidableEq

/-- pandas missing-value test (`isnull`): `None` and `NaN` are NA. -/
def Value.isNA : Value → Bool
  | .none => true
  | .nan => true
  | _ => false

/-- The class name extracted by `re.search("<class '(?P<t>\\w+)'>", str(type(value)))`. -/
def Value.typeName : Value → String
  | .none => "NoneType"
  | .nan => "float"
  | .str _ => "str"
  | .int _ => "int"
  | .bool _ => "bool"
  | .float _ => "float"

/-- Numeric content of a value for Python `==` (Python compares
`bool`, `int` and `float` numerically: `True == 1`, `1 == 1.0`). -/
def Value.numVal : Value → Option Rat
  | .int n => Option.some (n : Rat)
  | .float q => Option.some q
  | .bool b => Option.some (if b then 1 else 0)
  | _ => Option.none

/-- Elementwise pandas `==` between cells: NA never equals anything
(`NaN == x` is false), numbers compare numerically, everything else by
structural equality. -/
def pyEq (v w : Value) : Bool :=
  if v.isNA || w.isNA then false
  else
    match v.numVal, w.numVal with
    | Option.some a, Option.some b => decide (a = b)
    | _, _ => decide (v = w)

/-- Matching as used by `DataFrame.duplicated` and `Series.isin`:
like `pyEq`, except that NA matches NA (pandas factorizes all missing
values to the same code). -/
def isinEq (v w : Value) : Bool :=
  (v.isNA && w.isNA) || pyEq v w

/-- The replacement dictionary applied before `describe`:
`{False: 0, True: 1, "No": 0, "Yes": 1, "None": None}`. -/
def describeReplace : Value → Value
  | .bool false => .int 0
  | .bool true => .int 1
  | .str "No" => .int 0
  | .str "Yes" => .int 1
  | .str "None" => .none
  | v => v

/-- Python `str.isnumeric`, restricted to ASCII digit strings (the model
does not cover non-ASCII numerals). -/
def strIsNumeric (s : String) : Bool :=
  !s.data.isEmpty && s.data.all Char.isDigit

/-- Python `str.isdecimal`; on ASCII strings it coincides with
`str.isnumeric` (both demand every character be a digit, so a string
like "1.5" is not decimal). -/
def strIsDecimal (s : String) : Bool :=
  !s.data.isEmpty && s.data.all Char.isDigit

def digitsToNat (cs : List Char) : Nat :=
  cs.foldl (fun acc c => 10 * acc + (c.toNat - 48)) 0

/-- Python `int(s)` on a digit string. -/
def strToInt (s : String) : Int := (digitsToNat s.data : Int)

/-- Python `str(value)`; the repr of a non-integral float is
approximated (no claim evaluates it). -/
def pyStr : Value → String
  | .none => "None"
  | .nan => "nan"
  | .str s => s
  | .bool true => "True"
  | .bool false => "False"
  | .int n => Int.repr n
  | .float q => if q.den = 1 then Int.repr q.num ++ ".0" else Int.repr q.num ++ "/" ++ Nat.repr q.den

/-- A DataFrame: ordered named columns over aligned rows. -/
structure Table where
  cols : List (String × List Value)
deriving DecidableEq

def Table.columns (t : Table) : List String := t.cols.map Prod.fst

def Table.nrows (t : Table) : Nat :=
  match t.cols with
  | [] => 0
  | c :: _ => c.2.length

def Table.getCol (t : Table) (name : String) : List Value :=
  ((t.cols.find? (fun c => c.1 == name)).map Prod.snd).getD []

def Table.getCell (t : Table) (name : String) (i : Nat) : Value :=
  (t.getCol name).getD i Value.none

/-- Model of `df[name] = vs`: replace the column in place if it exists,
otherwise append it after all existing columns. -/
def Table.setCol (t : Table) (name : String) (vs : List Value) : Table :=
  if t.columns.contains name then
    ⟨t.cols.map (fun c => if c.1 == name then (c.1, vs) else c)⟩
  else ⟨t.cols ++ [(name, vs)]⟩

/-- Model of `df.loc[:, names]`: column projection; a missing label raises
`KeyError` (pandas 1.x). -/
def Table.selectCols (t : Table) (names : List String) : Except String Table :=
  if names.all (fun n => t.columns.contains n) then
    Except.ok ⟨names.map (fun n => (n, t.getCol n))⟩
  else Except.error "KeyError"

def filterIdx (vs : List Value) (p : Nat → Bool) : List Value :=
  (vs.enum.filter (fun x => p x.1)).map Prod.snd

/-- Boolean row selection `df[mask]`, with the mask given as a
predicate on row indices. -/
def Table.filterRowsIdx (t : Table) (p : Nat → Bool) : Table :=
  ⟨t.cols.map (fun c => (c.1, filterIdx c.2 p))⟩

/-- Well-formedness of a DataFrame: rectangular, distinct column names. -/
def Table.WF (t : Table) : Prop :=
  (∀ c ∈ t.cols, c.2.length = t.nrows) ∧ t.columns.Nodup

instance tableWFDecidable (t : Table) : Decidable (Table.WF t) :=
  inferInstanceAs (Decidable ((∀ c ∈ t.cols, c.2.length = t.nrows) ∧ t.columns.Nodup))

/-- The slice of the description DataFrame the engine consumes: its
column index and its "count" row (non-null counts computed after
`describeReplace`). -/
structure Description where
  columns : List String
  counts : List (String × Nat)
deriving DecidableEq

def colCount (vs : List Value) : Nat :=
  (vs.map describeReplace).countP (fun v => !v.isNA)

/-- Model of `flagged.replace({...}).describe(include='all', percentiles=[.05,.5,.95])`
followed by `description.append(self.df.dtypes.rename("dtypes"))`:
describing a frame without columns raises; the dtypes append unions the
column index with `self.df`'s columns (new labels after existing ones). -/
def describeTable (selfDf : Table) (flagged : Table) : Except String Description :=
  if flagged.cols.isEmpty then
    Except.error "Cannot describe a DataFrame without columns"
  else
    Except.ok
      { columns := flagged.columns ++ selfDf.columns.filter (fun c => !flagged.columns.contains c),
        counts := flagged.cols.map (fun c => (c.1, colCount c.2)) }

/-- Model of `description.loc["count", c]`. -/
def countLoc (d : Description) (c : String) : Nat :=
  ((d.counts.find? (fun kv => kv.1 == c)).map Prod.snd).getD 0

def _METHODS : List String := ["duplicates", "null"]

/-- The engine state: `self.df`, `self.methods`, `self.flagged`,
`self.description`, `self.unique_identifiers`. -/
structure DataQuality where
  df : Table
  methods : List String
  flagged : Table
  description : Description
  unique_identifiers : List String
deriving DecidableEq

/-- Model of `DataQuality.__init__`: the table argument is already a Table (a
dict input is converted to a DataFrame by the source before anything
else); unknown methods raise; then the initial flagged table (a deep
copy of `df`) and description are computed, `count_max` is the maximum
of the count row, and every column other than the first whose count is
at least `0.5 * count_max` joins `unique_identifiers`.  The source's
`count >= 0.5 * count_max` compares integer counts against a binary
float that is exact for them, so it is written here in the equivalent
integer form `2 * count ≥ count_max` (the rational form is proved
equivalent in `two_mul_ge_iff_half`). -/
def DataQuality.make (table : Table) (methods : List String) : Except String DataQuality :=
  if methods.all (fun m => _METHODS.contains m) then
    match describeTable table table with
    | Except.error e => Except.error e
    | Except.ok description =>
      let count_max : Nat := (description.counts.map Prod.snd).foldl Nat.max 0
      let uids : List String :=
        match table.columns with
        | [] => []
        | c0 :: _ =>
          table.columns.filter (fun c =>
            !(c == c0) && decide (2 * countLoc description c ≥ count_max))
      Except.ok { df := table, methods := methods, flagged := table,
                  description := description, unique_identifiers := uids }
  else Except.error "Not all requested methods are available"

/-- Model of `__self_or_none__`: take a deep copy of the given table (value
copy here) or recover `self.flagged`, and describe it. -/
def DataQuality.selfOrNone (s : DataQuality) (dataframe : Option Table) : Except String (Table × Description) :=
  let flagged := match dataframe with
    | Option.some d => d
    | Option.none => s.flagged
  match describeTable s.df flagged with
  | Except.error e => Except.error e
  | Except.ok description => Except.ok (flagged, description)

def keyMatch (t : Table) (subset : List String) (i j : Nat) : Bool :=
  subset.all (fun c => isinEq (t.getCell c i) (t.getCell c j))

/-- Model of `DataFrame.duplicated(subset, keep='first')` in pandas 1.x (the
version range of this source, which still has `DataFrame.append`): an
empty frame yields an empty mask; a subset label missing from the
frame raises `KeyError`; an empty subset on a non-empty frame reaches
`labels, shape = map(list, zip(*map(f, vals)))` with `vals` empty and
raises `ValueError: not enough values to unpack (expected 2, got 0)`;
otherwise row `i` is marked iff an earlier row matches it on every
subset column, with NA matching NA. -/
def duplicatedFlags (t : Table) (subset : List String) : Except String (List Bool) :=
  if t.nrows = 0 then Except.ok []
  else if subset.any (fun c => !t.columns.contains c) then Except.error "KeyError"
  else if subset.isEmpty then
    Except.error "not enough values to unpack (expected 2, got 0)"
  else
    Except.ok ((List.range t.nrows).map (fun i => (List.range i).any (fun j => keyMatch t subset j i)))

/-- Model of `flagged.isnull().sum(axis=1)`: per-row NA count over all present
columns. -/
def nullCounts (t : Table) : List Value :=
  (List.range t.nrows).map (fun i =>
    Value.int ((t.cols.map (fun c => c.2.getD i Value.none)).countP Value.isNA))

/-- Model of `DataQuality.flag`: work on the copy from `__self_or_none__`; when
requested, assign the `duplicates` mask as a 0/1 column and the `null`
per-row NA counts; store the result in `self.flagged` only when no
external table was supplied. -/
def DataQuality.flag (s : DataQuality) (df : Option Table) : Except String (DataQuality × Table) :=
  match s.selfOrNone df with
  | Except.error e => Except.error e
  | Except.ok (flagged0, _description) =>
    match (if s.methods.contains "duplicates" then
             (duplicatedFlags flagged0 s.unique_identifiers).map
               (fun ds => flagged0.setCol "duplicates"
                 (ds.map (fun b => if b then Value.int 1 else Value.int 0)))
           else Except.ok flagged0) with
    | Except.error e => Except.error e
    | Except.ok flagged1 =>
      let flagged2 := if s.methods.contains "null" then
          flagged1.setCol "null" (nullCounts flagged1)
        else flagged1
      Except.ok (if df.isNone then { s with flagged := flagged2 } else s, flagged2)

/-- Model of `DataQuality.describe`: recompute the description of the target and
refresh `self.description` only for the internal table. -/
def DataQuality.describe (s : DataQuality) (df : Option Table) : Except String (DataQuality × Description) :=
  match s.selfOrNone df with
  | Except.error e => Except.error e
  | Except.ok (_flagged, description) =>
    Except.ok (if df.isNone then { s with description := description } else s, description)

/-- Model of `DataQuality.clean`: project the target onto the description's
column index, and if a `duplicates` column is present keep only rows
whose first-column value occurs among first-column values of rows whose
`duplicates` entry equals 0; refresh `self.description` only for the
internal table. -/
def DataQuality.clean (s : DataQuality) (df : Option Table) : Except String (DataQuality × Table) :=
  match s.selfOrNone df with
  | Except.error e => Except.error e
  | Except.ok (flagged, description) =>
    match flagged.selectCols description.columns with
    | Except.error e => Except.error e
    | Except.ok cleaned0 =>
      let cleaned :=
        if flagged.columns.contains "duplicates" then
          match flagged.columns with
          | [] => cleaned0
          | id_column :: _ =>
            let unique_id := ((List.range flagged.nrows).filter
              (fun j => pyEq (flagged.getCell "duplicates" j) (Value.int 0))).map
                (flagged.getCell id_column)
            cleaned0.filterRowsIdx
              (fun i => unique_id.any (fun u => isinEq (cleaned0.getCell id_column i) u))
        else cleaned0
      Except.ok (if df.isNone then { s with description := description } else s, cleaned)

/-- The message of the source's conversion failure:
`"{} {} {} not converted into {}".format(column, type_current, str(value), dtype_requested)`. -/
def unconvMsg (column type_current : String) (value : Value) (dtype_requested : String) : String :=
  column ++ " " ++ type_current ++ " " ++ pyStr value ++ " not converted into " ++ dtype_requested

/-- The per-value coercion `dtype_change` of `values_format`: null-like
values (None, empty string, NaN) are replaced by `fill_empty` without
any coercion; otherwise, when the current type differs from the
requested tag, the source's if/elif chain applies — note the `str` and
`bool` branches have no raising else and fall through unchanged, so the
failure is reachable only for non-str, non-bool values. -/
def dtype_change (fill_empty : Value) (column : String) (dtype_requested : String) (value : Value) : Except String Value :=
  if value = Value.none ∨ value = Value.str "" ∨ value = Value.nan then
    Except.ok fill_empty
  else
    let type_current := value.typeName
    if type_current = dtype_requested then Except.ok value
    else
      match value with
      | Value.str s =>
        if dtype_requested = "int" ∧ strIsNumeric s then Except.ok (Value.int (strToInt s))
        else if dtype_requested = "float" ∧ strIsDecimal s then Except.ok (Value.float (strToInt s))
        else if dtype_requested = "yn" then
          if s = "1" ∨ s = "True" then Except.ok (Value.str "Yes")
          else if s = "0" ∨ s = "False" then Except.ok (Value.str "No")
          else Except.ok value
        else Except.ok value
      | Value.bool b =>
        if dtype_requested = "yn" then Except.ok (Value.str (if b then "Yes" else "No"))
        else Except.ok value
      | Value.int n =>
        if dtype_requested = "float" then Except.ok (Value.float (n : Rat))
        else if dtype_requested = "str" then Except.ok (Value.str (pyStr value))
        else Except.error (unconvMsg column type_current value dtype_requested)
      | Value.float q =>
        if dtype_requested = "int" ∧ q.den = 1 then Except.ok (Value.int q.num)
        else if dtype_requested = "str" then Except.ok (Value.str (pyStr value))
        else Except.error (unconvMsg column type_current value dtype_requested)
      | v =>
        if dtype_requested = "str" then Except.ok (Value.str (pyStr v))
        else Except.error (unconvMsg column type_current v dtype_requested)

/-- Model of `df.loc[:, column] = df.loc[:, column].apply(f)` with a fallible `f`. -/
def mapColM (t : Table) (name : String) (f : Value → Except String Value) : Except String Table :=
  match (t.getCol name).mapM f with
  | Except.error e => Except.error e
  | Except.ok vs => Except.ok (t.setCol name vs)

/-- Model of `df.fillna(value=fill_empty)`: with `value=None` (and no method)
pandas raises; otherwise every NA cell is replaced. -/
def fillnaTable (t : Table) (v : Value) : Except String Table :=
  if v = Value.none then Except.error "Must specify a fill 'value' or 'method'."
  else Except.ok ⟨t.cols.map (fun c => (c.1, c.2.map (fun x => if x.isNA then v else x)))⟩

/-- Model of `DataQuality.values_format`: target the given table or `self.df`,
check the requested column names against the target's headers, coerce
each targeted column in order with `dtype_change` (mutating the target,
hence `self.df` when no table was given), then `fillna` — the fillna
result is rebound to the local `df` only, so the filled table is
returned but not stored. -/
def DataQuality.values_format (s : DataQuality) (columns_dtypes : List (String × String)) (df : Option Table) (fill_empty : Value) : Except String (DataQuality × Table) :=
  let target := match df with
    | Option.some d => d
    | Option.none => s.df
  if columns_dtypes.any (fun kv => !target.columns.contains kv.1) then
    Except.error "Provided values(s) not in the table headers"
  else
    match columns_dtypes.foldlM (fun t kv => mapColM t kv.1 (dtype_change fill_empty kv.1 kv.2)) target with
    | Except.error e => Except.error e
    | Except.ok coerced =>
      match fillnaTable coerced fill_empty with
      | Except.error e => Except.error e
      | Except.ok result =>
        Except.ok (if df.isNone then { s with df := coerced } else s, result)

/-- The row predicate stated by the cleaning claims: row `i` is kept
iff its first-column value matches the first-column value of some row
whose `duplicates` entry equals 0. -/
def cleanKeep (t : Table) (i : Nat) : Bool :=
  (List.range t.nrows).any (fun j =>
    pyEq (t.getCell "duplicates" j) (Value.int 0) &&
      isinEq (t.getCell (t.columns.headD "") i) (t.getCell (t.columns.headD "") j))

/-- The condition under which none of `dtype_change`'s coercion rules
applies to a non-null value and the raising else is reached: the value
is an int or float (str and bool fall through silently), its type
differs from the request, and neither a numeric widening/narrowing rule
nor the generic str rule fires. -/
def noRuleApplies (v : Value) (req : String) : Bool :=
  match v with
  | Value.int _ => !(req == "int") && !(req == "float") && !(req == "str")
  | Value.float q => !(req == "float") && !(req == "int" && q.den == 1) && !(req == "str")
  | _ => false

/-- The usage-example table of the notebook. -/
def exTable : Table := ⟨[
  ("hyperlink", [Value.str "http", Value.str "htt", Value.str "http2", Value.str "htt2", Value.str "http"]),
  ("type_of_property", [Value.str "house", Value.str "apartment", Value.str "apartment", Value.none, Value.none]),
  ("postcode", [Value.str "1000", Value.str "1050", Value.str "1050", Value.none, Value.none]),
  ("garden", [Value.bool true, Value.bool false, Value.bool false, Value.none, Value.none]),
  ("surface", [Value.int 1, Value.int 2, Value.int 2, Value.int 4, Value.int 3])]⟩

/-- An engine state with an empty internal table; the cleaning and
formatting claims quantify over arbitrary engine states and external
tables, so any concrete state serves as instantiation. -/
def sAny : DataQuality := ⟨⟨[]⟩, _METHODS, ⟨[]⟩, ⟨[], []⟩, []⟩

/-- An engine state whose Unique Identifier Set is the single column
"b". -/
def sIdB : DataQuality := ⟨⟨[]⟩, _METHODS, ⟨[]⟩, ⟨[], []⟩, ["b"]⟩

/-- Two rows sharing a first-column value, the second flagged as a
duplicate. -/
def tC2 : Table := ⟨[("id", [Value.str "a", Value.str "a"]), ("duplicates", [Value.int 0, Value.int 1])]⟩

/-- Rows 2 and 3 are both all-null on column "b", the inferred
identifier set. -/
def tC4 : Table := ⟨[
  ("a", [Value.str "a", Value.str "b", Value.str "c", Value.str "d"]),
  ("b", [Value.str "x", Value.str "y", Value.none, Value.none])]⟩

/-- A non-numeric string and a boolean, both targeted at "int". -/
def tC5 : Table := ⟨[("c", [Value.str "abc"]), ("d", [Value.bool true])]⟩

/-- A single-column table: identifier inference always excludes the
first column, so the Unique Identifier Set is empty. -/
def tC8 : Table := ⟨[("a", [Value.str "x", Value.str "y"])]⟩

/-- The engine state from constructing on `tC8`: its identifier set is
empty. -/
def sC8 : DataQuality := ⟨tC8, _METHODS, tC8, ⟨["a"], [("a", 2)]⟩, []⟩

/-- A single null cell, to be filled by `values_format`. -/
def tC9 : Table := ⟨[("c", [Value.none])]⟩

/-- The table `tC9` after one `values_format` pass with `fill_empty = 5`. -/
def tC9Once : Table := ⟨[("c", [Value.int 5])]⟩

/-- The engine state produced by constructing on `exTable` with the
default methods (checked against `DataQuality.make` by `rfl` in the
witnesses). -/
def exDQ : DataQuality := ⟨exTable, _METHODS, exTable,
  ⟨["hyperlink", "type_of_property", "postcode", "garden", "surface"],
   [("hyperlink", 5), ("type_of_property", 3), ("postcode", 3), ("garden", 3), ("surface", 5)]⟩,
  ["type_of_property", "postcode", "garden", "surface"]⟩

/-- A small external table on which every read operation succeeds. -/
def tC7 : Table := ⟨[("id", [Value.str "a"]), ("b", [Value.int 1])]⟩

/-- The table `tC7` as returned by `flag`: no duplicate, no nulls. -/
def tC7Flagged : Table := ⟨[("id", [Value.str "a"]), ("b", [Value.int 1]),
  ("duplicates", [Value.int 0]), ("null", [Value.int 0])]⟩

/-- The description slice of `tC7`. -/
def dC7 : Description := ⟨["id", "b"], [("id", 1), ("b", 1)]⟩

/-- Two rows with distinct first-column values, the second flagged as a
duplicate: `clean` must drop exactly the second row. -/
def tC1 : Table := ⟨[("id", [Value.str "a", Value.str "b"]), ("duplicates", [Value.int 0, Value.int 1])]⟩

/-- A single-column two-row table for the empty-methods scenario. -/
def tC10 : Table := ⟨[("x", [Value.str "u", Value.str "u"])]⟩

/-- The engine state from constructing on `tC10` with `methods = []`. -/
def sC10 : DataQuality := ⟨tC10, [], tC10, ⟨["x"], [("x", 2)]⟩, []⟩

/-- C3: on the notebook's own example — construct, `flag()`, then
`clean()` — the cleaned table still carries the `duplicates` and `null`
columns: `description.columns` is computed from the flagged table, so
the `.loc[:, description.columns]` projection never strips the flag
columns, contradicting the code's own comment ("use only non-flagging
part of the flagged df") and the spec. -/
theorem clean_keeps_flag_columns_on_example :
    ((DataQuality.make exTable _METHODS).bind (fun s =>
      (s.flag Option.none).bind (fun p =>
        (p.1.clean Option.none).map (fun q => q.2.columns)))) =
      Except.ok ["hyperlink", "type_of_property", "postcode", "garden", "surface",
        "duplicates", "null"] := rfl

/-- C2 counterexample: the operation `clean` does not remove every row whose
`duplicates` flag is 1 — in `tC2` the second row is flagged 1 yet kept,
because its first-column value "a" coincides with that of the flag-0
first row. -/
theorem clean_keeps_flagged_row_with_shared_id :
    sAny.clean (Option.some tC2) = Except.ok (sAny, tC2) ∧
      tC2.getCell "duplicates" 1 = Value.int 1 := ⟨rfl, rfl⟩

/-- C4 counterexample: with identifier set ["b"], rows 2 and 3 of `tC4`
are both null on "b", and `flag` marks the later one `duplicates = 1`:
pandas `duplicated` treats missing values as equal, so all-null
identifier rows do match each other. -/
theorem flag_marks_later_all_null_row :
    (DataQuality.make tC4 _METHODS).map (fun s => s.unique_identifiers) = Except.ok ["b"] ∧
      ((DataQuality.make tC4 _METHODS).bind (fun s => s.flag Option.none)).map
        (fun p => p.2.getCol "duplicates") =
        Except.ok [Value.int 0, Value.int 0, Value.int 0, Value.int 1] := ⟨rfl, rfl⟩

/-- C5 counterexample: a non-numeric string targeted at "int" and a
boolean targeted at "int" do not raise — the `str` and `bool` branches
of `dtype_change` have no raising else, so `values_format` returns the
table unchanged. -/
theorem values_format_ignores_unconvertible_str_and_bool :
    sAny.values_format [("c", "int"), ("d", "int")] (Option.some tC5) (Value.int 0) =
      Except.ok (sAny, tC5) := rfl

/-- C8 counterexample: on the single-column table `tC8` the Unique
Identifier Set is empty, and `flag()` raises (pandas `duplicated` with
an empty subset) instead of assigning `duplicates = 0` to every row. -/
theorem flag_raises_on_empty_identifier_set_example :
    (DataQuality.make tC8 _METHODS).map (fun s => s.unique_identifiers) = Except.ok [] ∧
      ((DataQuality.make tC8 _METHODS).bind (fun s => s.flag Option.none)) =
        Except.error "not enough values to unpack (expected 2, got 0)" := ⟨rfl, rfl⟩

/-- C9 counterexample: a first `values_format` pass on `tC9` with
`fill_empty = 5` succeeds (the null is filled with 5, skipping
coercion), but the identical second pass fails: the filled integer 5
cannot be coerced to "yn". -/
theorem values_format_second_pass_fails_after_fill :
    sAny.values_format [("c", "yn")] (Option.some tC9) (Value.int 5) =
      Except.ok (sAny, tC9Once) ∧
    sAny.values_format [("c", "yn")] (Option.some tC9Once) (Value.int 5) =
      Except.error "c int 5 not converted into yn" := ⟨rfl, rfl⟩

theorem flag_state (s : DataQuality) (df : Option Table) (s' : DataQuality) (r : Table)
    (h : s.flag df = Except.ok (s', r)) :
    s' = if df.isNone then { s with flagged := r } else s := by
  unfold DataQuality.flag at h
  split at h
  · exact Except.noConfusion h
  · split at h
    · exact Except.noConfusion h
    · simp only [Except.ok.injEq, Prod.mk.injEq] at h
      obtain ⟨h1, h2⟩ := h
      subst h2
      exact h1.symm

theorem describe_state (s : DataQuality) (df : Option Table) (s' : DataQuality) (d : Description)
    (h : s.describe df = Except.ok (s', d)) :
    s' = if df.isNone then { s with description := d } else s := by
  unfold DataQuality.describe at h
  split at h
  · exact Except.noConfusion h
  · simp only [Except.ok.injEq, Prod.mk.injEq] at h
    obtain ⟨h1, h2⟩ := h
    subst h2
    exact h1.symm

theorem clean_state (s : DataQuality) (df : Option Table) (s' : DataQuality) (r : Table)
    (h : s.clean df = Except.ok (s', r)) :
    ∃ d, s' = if df.isNone then { s with description := d } else s := by
  unfold DataQuality.clean at h
  split at h
  · exact Except.noConfusion h
  · split at h
    · exact Except.noConfusion h
    · simp only [Except.ok.injEq, Prod.mk.injEq] at h
      obtain ⟨h1, _h2⟩ := h
      exact ⟨_, h1.symm⟩

theorem values_format_uids (s : DataQuality) (cd : List (String × String)) (df : Option Table)
    (fe : Value) (s' : DataQuality) (r : Table)
    (h : s.values_format cd df fe = Except.ok (s', r)) :
    s'.unique_identifiers = s.unique_identifiers := by
  cases df with
  | some d =>
    unfold DataQuality.values_format at h
    simp only [Option.isNone_some, Bool.false_eq_true, if_false] at h
    split at h
    · exact Except.noConfusion h
    · split at h
      · exact Except.noConfusion h
      · split at h
        · exact Except.noConfusion h
        · simp only [Except.ok.injEq, Prod.mk.injEq] at h
          obtain ⟨h1, _h2⟩ := h
          rw [← h1]
  | none =>
    unfold DataQuality.values_format at h
    simp only [Option.isNone_none, if_true] at h
    split at h
    · exact Except.noConfusion h
    · split at h
      · exact Except.noConfusion h
      · split at h
        · exact Except.noConfusion h
        · simp only [Except.ok.injEq, Prod.mk.injEq] at h
          obtain ⟨h1, _h2⟩ := h
          rw [← h1]

/-- C7: the operations `flag`, `describe` and `clean` called with an externally
supplied table leave the entire engine state — in particular the
internal flagged table and description — unchanged.  The model passes
tables by value and each operation writes only to the deep copy made by
`__self_or_none__`, mirroring the source, so the caller's table is not
mutated and no alias to it enters the state. -/
theorem external_ops_preserve_state (s : DataQuality) (t : Table) :
    (∀ s' r, s.flag (Option.some t) = Except.ok (s', r) → s' = s) ∧
    (∀ s' d, s.describe (Option.some t) = Except.ok (s', d) → s' = s) ∧
    (∀ s' r, s.clean (Option.some t) = Except.ok (s', r) → s' = s) := by
  refine ⟨fun s' r h => ?_, fun s' d h => ?_, fun s' r h => ?_⟩
  · have hs := flag_state s (Option.some t) s' r h
    simpa using hs
  · have hs := describe_state s (Option.some t) s' d h
    simpa using hs
  · obtain ⟨d2, hd⟩ := clean_state s (Option.some t) s' r h
    simpa using hd

/-- Witness for C7: on the concrete state `sIdB` and table `tC7` all
three operations succeed and the theorem yields state preservation. -/
theorem external_ops_preserve_state_witness :
    (sIdB.flag (Option.some tC7) = Except.ok (sIdB, tC7Flagged) ∧
      sIdB.describe (Option.some tC7) = Except.ok (sIdB, dC7) ∧
      sIdB.clean (Option.some tC7) = Except.ok (sIdB, tC7)) ∧ sIdB = sIdB :=
  ⟨⟨rfl, rfl, rfl⟩, (external_ops_preserve_state sIdB tC7).1 sIdB tC7Flagged rfl⟩

theorem make_ok_fields (table : Table) (methods : List String) (s : DataQuality)
    (h : DataQuality.make table methods = Except.ok s) :
    s.df = table ∧ s.methods = methods ∧ s.flagged = table ∧
      describeTable table table = Except.ok s.description ∧
      s.unique_identifiers = (match table.columns with
        | [] => []
        | c0 :: _ => table.columns.filter (fun c =>
            !(c == c0) && decide (2 * countLoc s.description c ≥
              (s.description.counts.map Prod.snd).foldl Nat.max 0))) := by
  unfold DataQuality.make at h
  split at h
  · split at h
    · exact Except.noConfusion h
    · rename_i description heq
      simp only [Except.ok.injEq] at h
      subst h
      exact ⟨rfl, rfl, rfl, heq, rfl⟩
  · exact Except.noConfusion h

/-- The source's `count >= 0.5 * count_max` over integer counts is the
integer comparison `2 * count ≥ count_max`. -/
theorem two_mul_ge_iff_half (a b : Nat) :
    2 * a ≥ b ↔ ((a : Rat) ≥ (1 : Rat)/2 * (b : Rat)) := by
  constructor
  · intro hge
    have hc : (b : Rat) ≤ ((2 * a : Nat) : Rat) := Nat.cast_le.mpr hge
    push_cast at hc
    rw [ge_iff_le]
    linarith
  · intro hle
    rw [ge_iff_le] at hle
    have hc : (b : Rat) ≤ ((2 * a : Nat) : Rat) := by push_cast; linarith
    exact Nat.cast_le.mp hc

/-- C6: the Unique Identifier Set computed at construction never
contains the first column; it contains exactly the other columns whose
count is at least half the maximum count over all columns; and no
subsequent `flag`, `describe`, `clean` or `values_format` call changes
it. -/
theorem unique_identifiers_spec (table : Table) (methods : List String) (s : DataQuality)
    (hmk : DataQuality.make table methods = Except.ok s) :
    (∀ c0 rest, table.columns = c0 :: rest → c0 ∉ s.unique_identifiers) ∧
    (∀ c0 rest, table.columns = c0 :: rest → ∀ c,
      (c ∈ s.unique_identifiers ↔ c ∈ table.columns ∧ c ≠ c0 ∧
        ((countLoc s.description c : Rat) ≥
          (1 : Rat)/2 * (((s.description.counts.map Prod.snd).foldl Nat.max 0 : Nat) : Rat)))) ∧
    (∀ df s' r, s.flag df = Except.ok (s', r) →
      s'.unique_identifiers = s.unique_identifiers) ∧
    (∀ df s' d, s.describe df = Except.ok (s', d) →
      s'.unique_identifiers = s.unique_identifiers) ∧
    (∀ df s' r, s.clean df = Except.ok (s', r) →
      s'.unique_identifiers = s.unique_identifiers) ∧
    (∀ cd df fe s' r, s.values_format cd df fe = Except.ok (s', r) →
      s'.unique_identifiers = s.unique_identifiers) := by
  obtain ⟨_hdf, _hm, _hfl, _hdesc, huid⟩ := make_ok_fields table methods s hmk
  have hmem : ∀ c0 rest, table.columns = c0 :: rest → ∀ c,
      (c ∈ s.unique_identifiers ↔ c ∈ table.columns ∧ c ≠ c0 ∧
        ((countLoc s.description c : Rat) ≥
          (1 : Rat)/2 * (((s.description.counts.map Prod.snd).foldl Nat.max 0 : Nat) : Rat))) := by
    intro c0 rest hcols c
    rw [huid, hcols]
    simp only [List.mem_filter, Bool.and_eq_true, Bool.not_eq_true', beq_eq_false_iff_ne,
      decide_eq_true_eq, ← hcols]
    rw [← two_mul_ge_iff_half]
  refine ⟨?_, hmem, ?_, ?_, ?_, ?_⟩
  · intro c0 rest hcols hc0
    exact (((hmem c0 rest hcols c0).mp hc0).2.1) rfl
  · intro df s' r h
    rw [flag_state s df s' r h]
    split
    · rfl
    · rfl
  · intro df s' d h
    rw [describe_state s df s' d h]
    split
    · rfl
    · rfl
  · intro df s' r h
    obtain ⟨d2, hd⟩ := clean_state s df s' r h
    rw [hd]
    split
    · rfl
    · rfl
  · intro cd df fe s' r h
    exact values_format_uids s cd df fe s' r h

/-- Witness for C6: constructing on the example table yields the state
`exDQ`; the instantiated theorem shows the first column `hyperlink` is
not among the identifiers. -/
theorem unique_identifiers_spec_witness :
    DataQuality.make exTable _METHODS = Except.ok exDQ ∧
      "hyperlink" ∉ exDQ.unique_identifiers :=
  ⟨rfl, (unique_identifiers_spec exTable _METHODS exDQ rfl).1 "hyperlink"
    ["type_of_property", "postcode", "garden", "surface"] rfl⟩

theorem find_map_self (cols : List (String × List Value)) (hnd : (cols.map Prod.fst).Nodup) :
    (cols.map Prod.fst).map
      (fun n => (n, ((cols.find? (fun c => c.1 == n)).map Prod.snd).getD [])) = cols := by
  induction cols with
  | nil => rfl
  | cons hd tl ih =>
    simp only [List.map_cons, List.nodup_cons] at hnd ⊢
    obtain ⟨hhd, htl⟩ := hnd
    rw [List.cons_eq_cons]
    constructor
    · simp [List.find?]
    · rw [List.map_congr_left, ih htl]
      intro n hn
      have hne : ¬ hd.1 = n := by
        intro heq
        exact hhd (heq ▸ hn)
      have hb : (hd.1 == n) = false := beq_eq_false_iff_ne.mpr hne
      simp only [List.find?, hb]

theorem selectCols_self (t : Table) (hwf : t.WF) :
    t.selectCols t.columns = Except.ok t := by
  unfold Table.selectCols
  rw [if_pos]
  · rw [show (fun n => (n, t.getCol n)) =
        (fun n => (n, ((t.cols.find? (fun c => c.1 == n)).map Prod.snd).getD [])) from rfl]
    rw [show t.columns = t.cols.map Prod.fst from rfl]
    rw [find_map_self t.cols hwf.2]
  · rw [List.all_eq_true]
    intro n hn
    exact List.elem_eq_true_of_mem hn

theorem filter_not_contains_self (l : List String) :
    l.filter (fun c => !l.contains c) = [] := by
  rw [List.filter_eq_nil_iff]
  intro c hc
  simp only [Bool.not_eq_true', Bool.not_eq_false]
  exact List.elem_eq_true_of_mem hc

theorem describeTable_self (t : Table) (hne : t.cols ≠ []) :
    describeTable t t = Except.ok ⟨t.columns, t.cols.map (fun c => (c.1, colCount c.2))⟩ := by
  unfold describeTable
  rw [if_neg]
  · rw [filter_not_contains_self, List.append_nil]
  · simp only [List.isEmpty_iff]
    exact hne

/-- C10: the constructor accepts an empty methods list; with no
methods `flag` appends neither a `duplicates` nor a `null` column and
returns the table unchanged, and the subsequent `clean` removes no rows
(no `duplicates` column exists, so no filtering happens). -/
theorem empty_methods_flag_clean_noop (table : Table) (hwf : Table.WF table)
    (hne : table.cols ≠ []) (hnd : ¬ "duplicates" ∈ table.columns) :
    ∃ s, DataQuality.make table [] = Except.ok s ∧
      s.flag Option.none = Except.ok (s, table) ∧
      s.clean Option.none = Except.ok (s, table) := by
  have hdesc := describeTable_self table hne
  refine ⟨⟨table, [], table,
    ⟨table.columns, table.cols.map (fun c => (c.1, colCount c.2))⟩,
    (match table.columns with
      | [] => []
      | c0 :: _ => table.columns.filter (fun c =>
          !(c == c0) && decide (2 * countLoc ⟨table.columns, table.cols.map (fun c => (c.1, colCount c.2))⟩ c ≥
            ((⟨table.columns, table.cols.map (fun c => (c.1, colCount c.2))⟩ : Description).counts.map Prod.snd).foldl Nat.max 0)))⟩,
    ?_, ?_, ?_⟩
  · unfold DataQuality.make
    rw [hdesc]
    rfl
  · unfold DataQuality.flag DataQuality.selfOrNone
    simp only [hdesc]
    rfl
  · unfold DataQuality.clean DataQuality.selfOrNone
    simp only [hdesc]
    rw [selectCols_self table hwf]
    have hcont : table.columns.contains "duplicates" = false := by
      rw [← Bool.not_eq_true]
      intro hc
      exact hnd (List.mem_of_elem_eq_true hc)
    rw [hcont]
    rfl

/-- Witness for C10 on the concrete single-column table `tC10`. -/
theorem empty_methods_flag_clean_noop_witness :
    DataQuality.make tC10 [] = Except.ok sC10 ∧
      sC10.flag Option.none = Except.ok (sC10, tC10) ∧
      sC10.clean Option.none = Except.ok (sC10, tC10) := by
  obtain ⟨s, h1, h2, h3⟩ :=
    empty_methods_flag_clean_noop tC10 (by decide) (by decide) (by decide)
  have hs : s = sC10 := Except.ok.inj (h1.symm.trans (rfl))
  rw [hs] at h1 h2 h3
  exact ⟨h1, h2, h3⟩

theorem any_filter_map (l : List Nat) (P : Nat → Bool) (f : Nat → Value) (Q : Value → Bool) :
    ((l.filter P).map f).any Q = l.any (fun j => P j && Q (f j)) := by
  induction l with
  | nil => rfl
  | cons hd tl ih =>
    rw [List.filter_cons]
    cases hP : P hd with
    | true => simp [hP, ih]
    | false => simp [hP, ih]

theorem isinEq_refl (v : Value) : isinEq v v = true := by
  cases v <;> simp [isinEq, pyEq, Value.isNA, Value.numVal]

theorem clean_external_eq (s : DataQuality) (t : Table) (hwf : t.WF)
    (hcols : ∀ c ∈ s.df.columns, c ∈ t.columns)
    (c0 : String) (rest : List String) (hc0 : t.columns = c0 :: rest)
    (hdup : "duplicates" ∈ t.columns) :
    s.clean (Option.some t) = Except.ok (s, t.filterRowsIdx (cleanKeep t)) := by
  have hcolsne : t.cols ≠ [] := by
    intro hnil
    rw [show t.columns = t.cols.map Prod.fst from rfl, hnil] at hc0
    exact List.noConfusion hc0
  have hfilt : s.df.columns.filter (fun c => !t.columns.contains c) = [] := by
    rw [List.filter_eq_nil_iff]
    intro c hc
    simp
    exact hcols c hc
  have hdesc : describeTable s.df t =
      Except.ok ⟨t.columns, t.cols.map (fun c => (c.1, colCount c.2))⟩ := by
    unfold describeTable
    rw [if_neg]
    · rw [hfilt, List.append_nil]
    · simp only [List.isEmpty_iff]
      exact hcolsne
  have hsel : t.selectCols (c0 :: rest) = Except.ok t := by
    rw [← hc0]
    exact selectCols_self t hwf
  have hct : (c0 :: rest).contains "duplicates" = true := by
    rw [← hc0]
    exact List.elem_eq_true_of_mem hdup
  have hpred : (fun i => ((((List.range t.nrows).filter
        (fun j => pyEq (t.getCell "duplicates" j) (Value.int 0))).map (t.getCell c0)).any
          (fun u => isinEq (t.getCell c0 i) u))) = cleanKeep t := by
    funext i
    rw [any_filter_map]
    unfold cleanKeep
    rw [hc0]
    rfl
  unfold DataQuality.clean DataQuality.selfOrNone
  simp only [hdesc, hc0, hsel, hct, Option.isNone_some, Bool.false_eq_true, reduceIte]
  rw [hpred]

/-- C1: on any table whose flagged form carries a `duplicates` column,
`clean` keeps exactly the rows whose first-column value matches the
first-column value of some row with `duplicates` = 0 (the predicate
`cleanKeep`), and removes all other rows; the engine state is
untouched. -/
theorem clean_retains_exactly_matching_rows (s : DataQuality) (t : Table)
    (hwf : t.WF) (hcols : ∀ c ∈ s.df.columns, c ∈ t.columns)
    (c0 : String) (rest : List String) (hc0 : t.columns = c0 :: rest)
    (hdup : "duplicates" ∈ t.columns) :
    s.clean (Option.some t) = Except.ok (s, t.filterRowsIdx (cleanKeep t)) :=
  clean_external_eq s t hwf hcols c0 rest hc0 hdup

/-- Witness for C1 on the concrete table `tC1` (row 0 kept, row 1
removed). -/
theorem clean_retains_exactly_matching_rows_witness :
    (tC1.WF ∧ "duplicates" ∈ tC1.columns) ∧
      sAny.clean (Option.some tC1) =
        Except.ok (sAny, tC1.filterRowsIdx (cleanKeep tC1)) :=
  ⟨⟨by decide, by decide⟩,
    clean_retains_exactly_matching_rows sAny tC1 (by decide) (by decide)
      "id" ["duplicates"] rfl (by decide)⟩

/-- C2 (amended): `clean` removes only rows whose `duplicates` flag is
not 0 — every flag-0 row is kept — but it does not remove every flag-1
row: it keeps any row whose first-column value coincides with that of a
flag-0 row, and the first-column values of kept rows all occur among
the flag-0 rows' first-column values. -/
theorem clean_removes_only_flagged_rows (s : DataQuality) (t : Table)
    (hwf : t.WF) (hcols : ∀ c ∈ s.df.columns, c ∈ t.columns)
    (c0 : String) (rest : List String) (hc0 : t.columns = c0 :: rest)
    (hdup : "duplicates" ∈ t.columns) :
    s.clean (Option.some t) = Except.ok (s, t.filterRowsIdx (cleanKeep t)) ∧
    (∀ i, i < t.nrows → pyEq (t.getCell "duplicates" i) (Value.int 0) = true →
      cleanKeep t i = true) ∧
    (∀ i, i < t.nrows → cleanKeep t i = false →
      pyEq (t.getCell "duplicates" i) (Value.int 0) = false) ∧
    (∀ i, cleanKeep t i = true → ∃ j, j < t.nrows ∧
      pyEq (t.getCell "duplicates" j) (Value.int 0) = true ∧
      isinEq (t.getCell c0 i) (t.getCell c0 j) = true) := by
  have hhead : t.columns.headD "" = c0 := by rw [hc0]; rfl
  have hkeep : ∀ i, i < t.nrows → pyEq (t.getCell "duplicates" i) (Value.int 0) = true →
      cleanKeep t i = true := by
    intro i hi hflag
    unfold cleanKeep
    rw [List.any_eq_true]
    refine ⟨i, List.mem_range.mpr hi, ?_⟩
    rw [hflag, isinEq_refl]
    rfl
  refine ⟨clean_external_eq s t hwf hcols c0 rest hc0 hdup, hkeep, ?_, ?_⟩
  · intro i hi hkf
    cases hpq : pyEq (t.getCell "duplicates" i) (Value.int 0) with
    | false => rfl
    | true => rw [hkeep i hi hpq] at hkf; exact Bool.noConfusion hkf
  · intro i hki
    unfold cleanKeep at hki
    rw [List.any_eq_true] at hki
    obtain ⟨j, hj, hconj⟩ := hki
    rw [Bool.and_eq_true] at hconj
    refine ⟨j, List.mem_range.mp hj, hconj.1, ?_⟩
    rw [← hhead]
    exact hconj.2

/-- Witness for C2 on the concrete table `tC2`: its flag-0 row 0 is
kept. -/
theorem clean_removes_only_flagged_rows_witness :
    (tC2.WF ∧ "duplicates" ∈ tC2.columns) ∧ cleanKeep tC2 0 = true :=
  ⟨⟨by decide, by decide⟩,
    (clean_removes_only_flagged_rows sAny tC2 (by decide) (by decide)
      "id" ["duplicates"] rfl (by decide)).2.1 0 (by decide) (by decide)⟩

theorem find_replace_preserve (cols : List (String × List Value)) (name n1 : String)
    (vs : List Value) (h : n1 ≠ name) :
    (cols.map (fun c => if c.1 == name then (c.1, vs) else c)).find? (fun c => c.1 == n1) =
      cols.find? (fun c => c.1 == n1) := by
  induction cols with
  | nil => rfl
  | cons hd tl ih =>
    by_cases hh : hd.1 = name
    · have hb1 : (hd.1 == name) = true := beq_iff_eq.mpr hh
      have hb2 : (hd.1 == n1) = false := by
        rw [beq_eq_false_iff_ne]
        intro he
        exact h (he ▸ hh)
      simp only [List.map_cons, List.find?, hb1, hb2, if_true]
      exact ih
    · have hb1 : (hd.1 == name) = false := beq_eq_false_iff_ne.mpr hh
      simp only [List.map_cons, List.find?, hb1, Bool.false_eq_true, if_false]
      cases hb2 : (hd.1 == n1) with
      | true => simp only [hb2]
      | false =>
        simp only [hb2]
        exact ih

theorem find_replace_self (cols : List (String × List Value)) (name : String) (vs : List Value)
    (h : name ∈ cols.map Prod.fst) :
    (cols.map (fun c => if c.1 == name then (c.1, vs) else c)).find? (fun c => c.1 == name) =
      Option.some (name, vs) := by
  induction cols with
  | nil => exact absurd h (List.not_mem_nil name)
  | cons hd tl ih =>
    by_cases hh : hd.1 = name
    · have hb1 : (hd.1 == name) = true := beq_iff_eq.mpr hh
      simp only [List.map_cons, List.find?, hb1, if_true]
      rw [hh]
    · have hb1 : (hd.1 == name) = false := beq_eq_false_iff_ne.mpr hh
      simp only [List.map_cons, List.find?, hb1, Bool.false_eq_true, if_false]
      apply ih
      rw [List.map_cons, List.mem_cons] at h
      cases h with
      | inl heq => exact absurd heq.symm hh
      | inr hm => exact hm

theorem getCol_setCol_self (t : Table) (name : String) (vs : List Value) :
    (t.setCol name vs).getCol name = vs := by
  unfold Table.setCol
  split
  · rename_i hcont
    unfold Table.getCol
    rw [find_replace_self t.cols name vs (List.mem_of_elem_eq_true hcont)]
    rfl
  · rename_i hncont
    unfold Table.getCol
    rw [List.find?_append]
    have hnone : t.cols.find? (fun c => c.1 == name) = Option.none := by
      rw [List.find?_eq_none]
      intro e he hbeq
      apply hncont
      apply List.elem_eq_true_of_mem
      rw [← beq_iff_eq.mp hbeq]
      exact List.mem_map_of_mem Prod.fst he
    rw [hnone]
    simp [List.find?]

theorem getCol_setCol_ne (t : Table) (n1 n2 : String) (vs : List Value) (h : n1 ≠ n2) :
    (t.setCol n2 vs).getCol n1 = t.getCol n1 := by
  unfold Table.setCol
  split
  · unfold Table.getCol
    rw [find_replace_preserve t.cols n2 n1 vs h]
  · unfold Table.getCol
    rw [List.find?_append]
    cases hf : t.cols.find? (fun c => c.1 == n1) with
    | some e => simp [hf]
    | none =>
      have hb : (n2 == n1) = false := beq_eq_false_iff_ne.mpr (Ne.symm h)
      simp [hf, List.find?, hb]

theorem getCell_setCol_self (t : Table) (name : String) (vs : List Value) (i : Nat) :
    (t.setCol name vs).getCell name i = vs.getD i Value.none := by
  unfold Table.getCell
  rw [getCol_setCol_self]

theorem getCell_setCol_ne (t : Table) (n1 n2 : String) (vs : List Value) (i : Nat)
    (h : n1 ≠ n2) :
    (t.setCol n2 vs).getCell n1 i = t.getCell n1 i := by
  unfold Table.getCell
  rw [getCol_setCol_ne t n1 n2 vs h]

theorem describeTable_ne (selfDf t : Table) (h : t.cols ≠ []) :
    describeTable selfDf t = Except.ok
      ⟨t.columns ++ selfDf.columns.filter (fun c => !t.columns.contains c),
        t.cols.map (fun c => (c.1, colCount c.2))⟩ := by
  unfold describeTable
  rw [if_neg]
  simp only [List.isEmpty_iff]
  exact h

theorem isinEq_of_isNA (v w : Value) (hv : v.isNA = true) (hw : w.isNA = true) :
    isinEq v w = true := by
  simp [isinEq, hv, hw]

theorem getD_map_range {α : Type} (n : Nat) (f : Nat → α) (j : Nat) (hj : j < n) (d : α) :
    (((List.range n).map f).getD j d) = f j := by
  rw [List.getD_eq_getElem?_getD, List.getElem?_map, List.getElem?_range hj]
  rfl

/-- C4 (amended): two rows that are all-null on every Unique Identifier
Set column DO match each other in `flag` — pandas `duplicated` treats
missing values as equal — so the later of the two is marked
`duplicates` = 1, not 0 as the spec asserts. -/
theorem flag_marks_matching_all_null_rows (s : DataQuality) (t : Table) (i j : Nat)
    (hij : i < j) (hj : j < t.nrows)
    (hne : s.unique_identifiers ≠ [])
    (hsub : ∀ c ∈ s.unique_identifiers, c ∈ t.columns)
    (hdm : s.methods.contains "duplicates" = true)
    (hnullI : ∀ c ∈ s.unique_identifiers, (t.getCell c i).isNA = true)
    (hnullJ : ∀ c ∈ s.unique_identifiers, (t.getCell c j).isNA = true) :
    (s.flag (Option.some t)).map (fun p => p.2.getCell "duplicates" j) =
      Except.ok (Value.int 1) := by
  have hnz : ¬ t.nrows = 0 := by
    intro h0
    rw [h0] at hj
    exact Nat.not_lt_zero j hj
  have hcne : t.cols ≠ [] := by
    intro h0
    apply hnz
    unfold Table.nrows
    rw [h0]
  have hdesc := describeTable_ne s.df t hcne
  have hanysub : (s.unique_identifiers.any (fun c => !t.columns.contains c)) = false := by
    rw [List.any_eq_false]
    intro c hc
    simp
    exact hsub c hc
  have hnemp : s.unique_identifiers.isEmpty = false := by
    cases hu : s.unique_identifiers with
    | nil => exact absurd hu hne
    | cons a l => rfl
  have hflags : duplicatedFlags t s.unique_identifiers = Except.ok
      ((List.range t.nrows).map
        (fun i2 => (List.range i2).any (fun j2 => keyMatch t s.unique_identifiers j2 i2))) := by
    unfold duplicatedFlags
    rw [if_neg hnz]
    simp only [hanysub, hnemp, Bool.false_eq_true, if_false]
  have hfj : ((List.range j).any (fun j2 => keyMatch t s.unique_identifiers j2 j)) = true := by
    rw [List.any_eq_true]
    refine ⟨i, List.mem_range.mpr hij, ?_⟩
    unfold keyMatch
    rw [List.all_eq_true]
    intro c hc
    exact isinEq_of_isNA _ _ (hnullI c hc) (hnullJ c hc)
  have hbase : (t.setCol "duplicates"
      (((List.range t.nrows).map
        (fun i2 => (List.range i2).any (fun j2 => keyMatch t s.unique_identifiers j2 i2))).map
          (fun b => if b then Value.int 1 else Value.int 0))).getCell "duplicates" j
      = Value.int 1 := by
    rw [getCell_setCol_self, List.map_map, getD_map_range t.nrows _ j hj]
    show (if ((List.range j).any (fun j2 => keyMatch t s.unique_identifiers j2 j)) then
      Value.int 1 else Value.int 0) = Value.int 1
    rw [hfj]
    rfl
  unfold DataQuality.flag DataQuality.selfOrNone
  simp only [hdesc, hdm, hflags, if_true]
  cases hnul : s.methods.contains "null" with
  | false =>
    simp only [hnul, Bool.false_eq_true, if_false, Except.map, hbase]
  | true =>
    simp only [hnul, if_true, Except.map]
    rw [getCell_setCol_ne _ "duplicates" "null" _ j (by decide), hbase]

/-- Witness for C4's amended statement on `tC4` with identifier set
["b"] (rows 2 and 3 all-null on "b"). -/
theorem flag_marks_matching_all_null_rows_witness :
    (sIdB.unique_identifiers ≠ [] ∧ sIdB.methods.contains "duplicates" = true ∧
      (2 : Nat) < 3 ∧ 3 < tC4.nrows) ∧
    (sIdB.flag (Option.some tC4)).map (fun p => p.2.getCell "duplicates" 3) =
      Except.ok (Value.int 1) :=
  ⟨⟨by decide, by decide, by decide, by decide⟩,
    flag_marks_matching_all_null_rows sIdB tC4 2 3 (by decide) (by decide) (by decide)
      (by decide) (by decide) (by decide) (by decide)⟩

/-- C8 (amended): when the Unique Identifier Set is empty and the
target table is non-empty, `flag` with the `duplicates` method does not
assign 0 to every row — it raises the pandas error from
`duplicated(subset=[])`. -/
theorem flag_raises_on_empty_identifier_set (s : DataQuality) (df : Option Table)
    (hne : s.unique_identifiers = [])
    (hdm : s.methods.contains "duplicates" = true)
    (hcols : (df.getD s.flagged).cols ≠ [])
    (hrows : ¬ (df.getD s.flagged).nrows = 0) :
    s.flag df = Except.error "not enough values to unpack (expected 2, got 0)" := by
  have hdf : duplicatedFlags (df.getD s.flagged) s.unique_identifiers =
      Except.error "not enough values to unpack (expected 2, got 0)" := by
    unfold duplicatedFlags
    rw [hne, if_neg hrows]
    rfl
  cases df with
  | some d =>
    have hdf2 : duplicatedFlags d s.unique_identifiers =
        Except.error "not enough values to unpack (expected 2, got 0)" := hdf
    unfold DataQuality.flag DataQuality.selfOrNone
    simp only [describeTable_ne s.df d (by simpa using hcols), hdm, if_true, hdf2, Except.map]
  | none =>
    have hdf2 : duplicatedFlags s.flagged s.unique_identifiers =
        Except.error "not enough values to unpack (expected 2, got 0)" := hdf
    unfold DataQuality.flag DataQuality.selfOrNone
    simp only [describeTable_ne s.df s.flagged (by simpa using hcols), hdm, if_true, hdf2,
      Except.map]

/-- Witness for C8's amended statement: the state constructed on the
single-column `tC8` has an empty identifier set and `flag()` raises. -/
theorem flag_raises_on_empty_identifier_set_witness :
    (DataQuality.make tC8 _METHODS = Except.ok sC8 ∧ sC8.unique_identifiers = [] ∧
      sC8.methods.contains "duplicates" = true ∧ ¬ ((Option.none : Option Table).getD sC8.flagged).nrows = 0) ∧
    sC8.flag Option.none = Except.error "not enough values to unpack (expected 2, got 0)" :=
  ⟨⟨rfl, rfl, by decide, by decide⟩,
    flag_raises_on_empty_identifier_set sC8 Option.none rfl (by decide) (by decide) (by decide)⟩

theorem toDigitsCore_ne_nil (b fuel n : Nat) (ds : List Char) (h : ds ≠ []) :
    Nat.toDigitsCore b fuel n ds ≠ [] := by
  induction fuel generalizing n ds with
  | zero => exact h
  | succ f ih =>
    simp only [Nat.toDigitsCore]
    split
    · exact List.cons_ne_nil _ _
    · exact ih _ _ (List.cons_ne_nil _ _)

theorem toDigits_ne_nil (b n : Nat) : Nat.toDigits b n ≠ [] := by
  simp only [Nat.toDigits, Nat.toDigitsCore]
  split
  · exact List.cons_ne_nil _ _
  · exact toDigitsCore_ne_nil _ _ _ _ (List.cons_ne_nil _ _)

theorem natRepr_ne_empty (n : Nat) : Nat.repr n ≠ "" := by
  unfold Nat.repr
  intro h
  exact toDigits_ne_nil 10 n (congrArg String.data h)

theorem intRepr_ne_empty (n : Int) : Int.repr n ≠ "" := by
  cases n with
  | ofNat m => exact natRepr_ne_empty m
  | negSucc m =>
    intro h
    unfold Int.repr at h
    have hd := congrArg String.data h
    rw [String.data_append] at hd
    obtain ⟨_h1, h2⟩ := List.append_eq_nil.mp hd
    exact natRepr_ne_empty (m + 1) (String.ext h2)

theorem append_ne_empty_of_right (a b : String) (hb : b ≠ "") : a ++ b ≠ "" := by
  intro h
  apply hb
  have hd := congrArg String.data h
  rw [String.data_append] at hd
  obtain ⟨_h1, h2⟩ := List.append_eq_nil.mp hd
  exact String.ext h2

theorem pyStrFloat_ne_empty (q : Rat) : pyStr (Value.float q) ≠ "" := by
  show (if q.den = 1 then Int.repr q.num ++ ".0"
    else Int.repr q.num ++ "/" ++ Nat.repr q.den) ≠ ""
  split
  · exact append_ne_empty_of_right _ ".0" (by decide)
  · exact append_ne_empty_of_right _ _ (natRepr_ne_empty q.den)

/-- C5 (amended): the conversion failure is raised exactly for non-str,
non-bool, non-null values to which no rule applies — an `int` or
`float` whose type differs from the request, with no numeric rule and a
request other than "str" (`noRuleApplies`) — naming the column, current
type, value and requested type; unconvertible strings and booleans fall
through the raising chain and are left unchanged instead. -/
theorem values_format_raises_when_no_rule (s : DataQuality) (c req : String) (v fill : Value)
    (h : noRuleApplies v req = true) :
    s.values_format [(c, req)] (Option.some ⟨[(c, [v])]⟩) fill =
      Except.error (unconvMsg c v.typeName v req) := by
  have hdc : dtype_change fill c req v = Except.error (unconvMsg c v.typeName v req) := by
    cases v with
    | int n =>
      simp only [noRuleApplies, Bool.and_eq_true, Bool.not_eq_true', beq_eq_false_iff_ne] at h
      obtain ⟨⟨hni, hnf⟩, hns⟩ := h
      unfold dtype_change
      rw [if_neg (by simp)]
      dsimp only
      rw [if_neg (show ¬((Value.int n).typeName = req) from fun he => hni he.symm)]
      rw [if_neg hnf, if_neg hns]
    | float q =>
      simp only [noRuleApplies, Bool.and_eq_true, Bool.not_eq_true', beq_eq_false_iff_ne,
        Bool.and_eq_false_iff] at h
      obtain ⟨⟨hnf, hni⟩, hns⟩ := h
      have hand : ¬(req = "int" ∧ q.den = 1) := by
        intro hand
        cases hni with
        | inl h0 => exact h0 hand.1
        | inr h0 => exact h0 hand.2
      unfold dtype_change
      rw [if_neg (by simp)]
      dsimp only
      rw [if_neg (show ¬((Value.float q).typeName = req) from fun he => hnf he.symm)]
      rw [if_neg hand, if_neg hns]
    | none => simp [noRuleApplies] at h
    | nan => simp [noRuleApplies] at h
    | str s2 => simp [noRuleApplies] at h
    | bool b => simp [noRuleApplies] at h
  have hchk : ([(c, req)].any fun kv => !(Table.mk [(c, [v])]).columns.contains kv.1) = false := by
    simp [Table.columns]
  have hget : (Table.mk [(c, [v])]).getCol c = [v] := by
    simp [Table.getCol, List.find?]
  have hmapm : List.mapM (dtype_change fill c req) [v] =
      Except.error (unconvMsg c v.typeName v req) := by
    unfold List.mapM List.mapM.loop
    rw [hdc]
    rfl
  have hmap : mapColM (Table.mk [(c, [v])]) c (dtype_change fill c req) =
      Except.error (unconvMsg c v.typeName v req) := by
    unfold mapColM
    rw [hget, hmapm]
  have hfold : List.foldlM (fun t kv => mapColM t kv.1 (dtype_change fill kv.1 kv.2))
      (Table.mk [(c, [v])]) [(c, req)] = Except.error (unconvMsg c v.typeName v req) := by
    unfold List.foldlM
    simp only []
    rw [show (mapColM (Table.mk [(c, [v])]) c (dtype_change fill c req)) =
      Except.error (unconvMsg c v.typeName v req) from hmap]
    rfl
  unfold DataQuality.values_format
  simp only [hchk, Bool.false_eq_true, if_false, hfold]

/-- Witness for C5's amended statement: an integer targeted at "yn"
raises the full message. -/
theorem values_format_raises_when_no_rule_witness :
    noRuleApplies (Value.int 7) "yn" = true ∧
      sAny.values_format [("g", "yn")] (Option.some ⟨[("g", [Value.int 7])]⟩) (Value.int 0) =
        Except.error (unconvMsg "g" (Value.int 7).typeName (Value.int 7) "yn") :=
  ⟨by decide,
    values_format_raises_when_no_rule sAny "g" "yn" (Value.int 7) (Value.int 0) (by decide)⟩

/-- C9 (amended): the coercion `dtype_change` is idempotent on every cell whose
input is not null-like: if a non-null value coerces successfully, a
second application returns it unchanged.  Idempotence of
`values_format` as a whole fails only through null cells, which are
replaced by `fill_empty` without coercion (see the counterexample). -/
theorem dtype_change_idempotent_on_non_null (fill : Value) (c req : String) (v w : Value)
    (hnn : ¬(v = Value.none ∨ v = Value.str "" ∨ v = Value.nan))
    (h : dtype_change fill c req v = Except.ok w) :
    dtype_change fill c req w = Except.ok w := by
  unfold dtype_change at h
  rw [if_neg hnn] at h
  by_cases hty : v.typeName = req
  · rw [if_pos hty] at h
    have hw : v = w := Except.ok.inj h
    subst hw
    unfold dtype_change
    rw [if_neg hnn, if_pos hty]
  · rw [if_neg hty] at h
    cases v with
    | none => exact absurd (Or.inl rfl) hnn
    | nan => exact absurd (Or.inr (Or.inr rfl)) hnn
    | str s =>
      dsimp only at h
      by_cases h1 : req = "int" ∧ strIsNumeric s = true
      · rw [if_pos h1] at h
        have hw := Except.ok.inj h
        subst hw
        obtain ⟨h1a, _⟩ := h1
        subst h1a
        rfl
      · rw [if_neg h1] at h
        by_cases h2 : req = "float" ∧ strIsDecimal s = true
        · rw [if_pos h2] at h
          have hw := Except.ok.inj h
          subst hw
          obtain ⟨h2a, _⟩ := h2
          subst h2a
          rfl
        · rw [if_neg h2] at h
          by_cases h3 : req = "yn"
          · rw [if_pos h3] at h
            by_cases h4 : s = "1" ∨ s = "True"
            · rw [if_pos h4] at h
              have hw := Except.ok.inj h
              subst hw
              subst h3
              rfl
            · rw [if_neg h4] at h
              by_cases h5 : s = "0" ∨ s = "False"
              · rw [if_pos h5] at h
                have hw := Except.ok.inj h
                subst hw
                subst h3
                rfl
              · rw [if_neg h5] at h
                have hw := Except.ok.inj h
                subst hw
                unfold dtype_change
                dsimp only
                rw [if_neg hnn, if_neg hty, if_neg h1, if_neg h2,
                  if_pos h3, if_neg h4, if_neg h5]
          · rw [if_neg h3] at h
            have hw := Except.ok.inj h
            subst hw
            unfold dtype_change
            dsimp only
            rw [if_neg hnn, if_neg hty, if_neg h1, if_neg h2,
              if_neg h3]
    | bool b =>
      dsimp only at h
      by_cases h1 : req = "yn"
      · rw [if_pos h1] at h
        have hw := Except.ok.inj h
        subst hw
        subst h1
        cases b
        · rfl
        · rfl
      · rw [if_neg h1] at h
        have hw := Except.ok.inj h
        subst hw
        unfold dtype_change
        dsimp only
        rw [if_neg hnn, if_neg hty, if_neg h1]
    | int n =>
      dsimp only at h
      by_cases h1 : req = "float"
      · rw [if_pos h1] at h
        have hw := Except.ok.inj h
        subst hw
        subst h1
        rfl
      · rw [if_neg h1] at h
        by_cases h2 : req = "str"
        · rw [if_pos h2] at h
          have hw := Except.ok.inj h
          subst hw
          subst h2
          have hg : ¬(Value.str (pyStr (Value.int n)) = Value.none ∨
              Value.str (pyStr (Value.int n)) = Value.str "" ∨
              Value.str (pyStr (Value.int n)) = Value.nan) := by
            intro hor
            rcases hor with h0 | h0 | h0
            · exact Value.noConfusion h0
            · exact intRepr_ne_empty n (Value.str.inj h0)
            · exact Value.noConfusion h0
          unfold dtype_change
          dsimp only
          rw [if_neg hg]
          rfl
        · rw [if_neg h2] at h
          exact Except.noConfusion h
    | float q =>
      dsimp only at h
      by_cases h1 : req = "int" ∧ q.den = 1
      · rw [if_pos h1] at h
        have hw := Except.ok.inj h
        subst hw
        obtain ⟨h1a, _⟩ := h1
        subst h1a
        rfl
      · rw [if_neg h1] at h
        by_cases h2 : req = "str"
        · rw [if_pos h2] at h
          have hw := Except.ok.inj h
          subst hw
          subst h2
          have hg : ¬(Value.str (pyStr (Value.float q)) = Value.none ∨
              Value.str (pyStr (Value.float q)) = Value.str "" ∨
              Value.str (pyStr (Value.float q)) = Value.nan) := by
            intro hor
            rcases hor with h0 | h0 | h0
            · exact Value.noConfusion h0
            · exact pyStrFloat_ne_empty q (Value.str.inj h0)
            · exact Value.noConfusion h0
          unfold dtype_change
          dsimp only
          rw [if_neg hg]
          rfl
        · rw [if_neg h2] at h
          exact Except.noConfusion h

/-- Witness for C9's amended statement: the string "1" coerces to "Yes"
under "yn", and a second pass leaves "Yes" unchanged. -/
theorem dtype_change_idempotent_witness :
    (¬(Value.str "1" = Value.none ∨ Value.str "1" = Value.str "" ∨ Value.str "1" = Value.nan) ∧
      dtype_change (Value.int 0) "c" "yn" (Value.str "1") = Except.ok (Value.str "Yes")) ∧
    dtype_change (Value.int 0) "c" "yn" (Value.str "Yes") = Except.ok (Value.str "Yes") :=
  ⟨⟨by decide, rfl⟩,
    dtype_change_idempotent_on_non_null (Value.int 0) "c" "yn" (Value.str "1") (Value.str "Yes")
      (by decide) rfl⟩

end DQ
